import Mathlib

/-!
Shallow embedding of `src/Laboral/agent.py`: an in-memory case store for
labor-dispute intake, a keyword-based narrative classifier, and the case
operations (create, capture identity, pull narrative, append narrative,
capture required fields, request/mark documents, validate, generate file,
hand off).  Python dicts become association lists, mutable state becomes
explicit store passing, `Optional[str]` becomes `Option String`, and the
Python truthiness tests on strings are modelled explicitly.
-/

namespace Laboral

/-! ### String and char helpers mirroring Python semantics -/

/-- Python `str.upper` restricted to the character repertoire this program
uses: ASCII letters plus the Spanish accented letters appearing in the data. -/
def pyToUpper (c : Char) : Char :=
  if 'a' ≤ c ∧ c ≤ 'z' then Char.ofNat (c.toNat - 32)
  else if c = 'á' then 'Á' else if c = 'é' then 'É' else if c = 'í' then 'Í'
  else if c = 'ó' then 'Ó' else if c = 'ú' then 'Ú' else if c = 'ñ' then 'Ñ'
  else if c = 'ü' then 'Ü' else c

/-- Python `str.lower` on the same repertoire. -/
def pyToLower (c : Char) : Char :=
  if 'A' ≤ c ∧ c ≤ 'Z' then Char.ofNat (c.toNat + 32)
  else if c = 'Á' then 'á' else if c = 'É' then 'é' else if c = 'Í' then 'í'
  else if c = 'Ó' then 'ó' else if c = 'Ú' then 'ú' else if c = 'Ñ' then 'ñ'
  else if c = 'Ü' then 'ü' else c

/-- `case_id.upper()`. -/
def pyUpperStr (s : String) : String := ⟨s.data.map pyToUpper⟩

/-- Characters matched by Python `\s` (ASCII part) and stripped by `str.strip`. -/
def isSpaceChar (c : Char) : Bool :=
  c == ' ' || c == '\t' || c == '\n' || c == '\r' || c.toNat == 11 || c.toNat == 12

/-- Python `str.strip`. -/
def stripList (l : List Char) : List Char :=
  ((l.dropWhile isSpaceChar).reverse.dropWhile isSpaceChar).reverse

/-- `re.sub(r"\s+", " ", ·)`: each maximal whitespace run becomes one space.
The flag records whether we are inside a whitespace run. -/
def collapseWsAux : Bool → List Char → List Char
  | _, [] => []
  | inRun, c :: cs =>
    if isSpaceChar c then
      if inRun then collapseWsAux true cs else ' ' :: collapseWsAux true cs
    else c :: collapseWsAux false cs

/-- `_normalize(text) = re.sub(r"\s+", " ", text.strip().lower())`,
as a list of characters. -/
def normalizeText (s : String) : List Char :=
  collapseWsAux false ((stripList s.data).map pyToLower)

/-- Does `needle` match at the head of the haystack? -/
def takesAt : List Char → List Char → Bool
  | [], _ => true
  | _ :: _, [] => false
  | n :: ns, h :: hs => n == h && takesAt ns hs

/-- Python substring test `needle in haystack`. -/
def hasSub (needle : List Char) : List Char → Bool
  | [] => takesAt needle []
  | h :: hs => takesAt needle (h :: hs) || hasSub needle hs

/-- `any(s in t for s in phrases)` with `t` already normalized. -/
def containsAnyOf (phrases : List String) (t : List Char) : Bool :=
  phrases.any (fun s => hasSub s.data t)

/-- Python truthiness of an `Optional[str]`: `None` and `""` are falsy. -/
def falsy : Option String → Bool
  | none => true
  | some s => s.isEmpty

/-- `x or ""` on an `Optional[str]`. -/
def optStr : Option String → String
  | none => ""
  | some s => s

/-- `s or d` for plain strings. -/
def strOr (s d : String) : String := if s.isEmpty then d else s

/-- `x or d` on an `Optional[str]` (used for the `'N/D'` defaults). -/
def optOr (o : Option String) (d : String) : String := strOr (optStr o) d

/-! ### Association lists standing for Python dicts -/

/-- `dict.get k`. -/
def dictGet {α : Type} (k : String) : List (String × α) → Option α
  | [] => none
  | (q, v) :: rest => if q = k then some v else dictGet k rest

/-- `dict[k] = v`: replace in place when the key exists, append otherwise
(Python dicts preserve insertion order). -/
def dictInsert {α : Type} (k : String) (v : α) : List (String × α) → List (String × α)
  | [] => [(k, v)]
  | (q, w) :: rest => if q = k then (k, v) :: rest else (q, w) :: dictInsert k v rest

/-! ### Data model -/

/-- `CaseState` enumeration from the source. -/
inductive CaseState where
  | RECEIVED
  | DETAILS_CAPTURED
  | DOCS_REQUESTED
  | DOCS_RECEIVED
  | VALIDATED
  | PRE_CLASSIFIED
  | EXPEDIENTE_GENERATED
  | HANDOFF_TO_HUMAN
deriving DecidableEq

/-- `.value` of the string-valued enum. -/
def CaseState.value : CaseState → String
  | .RECEIVED => "RECEIVED"
  | .DETAILS_CAPTURED => "DETAILS_CAPTURED"
  | .DOCS_REQUESTED => "DOCS_REQUESTED"
  | .DOCS_RECEIVED => "DOCS_RECEIVED"
  | .VALIDATED => "VALIDATED"
  | .PRE_CLASSIFIED => "PRE_CLASSIFIED"
  | .EXPEDIENTE_GENERATED => "EXPEDIENTE_GENERATED"
  | .HANDOFF_TO_HUMAN => "HANDOFF_TO_HUMAN"

structure DocumentChecklistItem where
  doc : String
  requerido : Bool := false
  recibido : Bool := false
  nota : Option String := none
deriving DecidableEq

structure CaseData where
  nombre : Option String := none
  dui : Option String := none
  contacto : Option String := none
  empleador_nombre : Option String := none
  cargo : Option String := none
  salario_monto : Option String := none
  salario_periodicidad : Option String := none
  fecha_inicio : Option String := none
  fecha_despido_ultimo_pago : Option String := none
  relato : Option String := none
  relato_extra : Option String := none
  pretension : Option String := none
  jurisdiccion_probable : Option String := none
  banderas : List String := []
deriving DecidableEq

structure CaseRecord where
  case_id : String
  state : CaseState := .RECEIVED
  created_at : String := ""
  updated_at : String := ""
  data : CaseData := {}
  checklist : List (String × DocumentChecklistItem) := []
  expediente : Option String := none
deriving DecidableEq

/-- `CaseRecord(case_id=cid)` with dataclass defaults (timestamps are opaque
strings here; the program never reads them). -/
def newRecord (cid : String) : CaseRecord := { case_id := cid }

/-- `CASE_DB`, passed explicitly. -/
abbrev Store := List (String × CaseRecord)

/-! ### Hardcoded lists -/

def DOCUMENTOS_BASE : List String :=
  [ "Contrato (si existe)",
    "Constancia salarial / colillas / transferencias",
    "Carta de despido (si existe)",
    "Afiliación AFP/ISSS (si aplica)",
    "Comprobantes de pago",
    "Planillas / boletas / transferencias",
    "Comunicación con empleador (WhatsApp/email) si existe",
    "Constancia médica (si aplica)",
    "Incapacidad (si existe)",
    "Reportes (si existen)" ]

def LABORAL_KEYWORDS : List String :=
  [ "empleador", "salario", "pago", "despido", "jornada",
    "prestaciones", "contrato", "trabaj", "incapacidad", "accidente" ]

def PENAL_SIGNALS : List String :=
  [ "amenaza de muerte", "arma", "secuestro", "extorsión", "agresión sexual" ]

/-- `HARDCODED_GENERAL_CASES` as a lookup from case id to the `relato` text. -/
def generalCases (cid : String) : Option String :=
  if cid = "LAB-0001" then
    some ("Trabajé como auxiliar de bodega. Me pagaban semanalmente. " ++
      "El empleador me dijo que ya no llegara y no me entregó carta de despido. " ++
      "Quedó pendiente el pago de la última semana.")
  else if cid = "LAB-0002" then
    some ("Tuve un accidente en el trabajo y me dieron incapacidad. " ++
      "El empleador no quiso reconocer el incidente y me presionó para renunciar.")
  else none

/-! ### Narrative classifier -/

def corresponde_a_laboral (relato_total : String) : Bool :=
  let t := normalizeText relato_total
  if containsAnyOf PENAL_SIGNALS t then false
  else containsAnyOf LABORAL_KEYWORDS t

def routePenal : String :=
  "PENAL (probable) — derivación sugerida, revisión humana obligatoria"

def routeLaboral : String :=
  "LABORAL (probable) — pre-clasificación operativa, revisión humana final"

def routeRevisar : String :=
  "REVISAR (humano) — información insuficiente para ruta operativa"

def route_operativa (relato_total : String) : String :=
  let t := normalizeText relato_total
  if containsAnyOf PENAL_SIGNALS t then routePenal
  else if containsAnyOf LABORAL_KEYWORDS t then routeLaboral
  else routeRevisar

/-! ### Result dictionaries

Each tool returns a Python dict.  The union of all keys used across the ten
tools becomes a record of optional fields; a key is present in the returned
dict exactly when the field is `some`. -/

/-- The nested `formato` dict of `pull_story_from_general`. -/
structure Formato where
  nombre_persona : String
  dui : String
  relato : String
deriving DecidableEq

structure OpResult where
  status : String
  case_id : Option String := none
  state : Option String := none
  error_message : Option String := none
  formato : Option Formato := none
  flags : Option (List String) := none
  jurisdiccion_probable : Option String := none
  corresponde_a_laboral_probable : Option Bool := none
  documentos_base : Option (List (String × Bool)) := none
  nota : Option String := none
  doc : Option String := none
  existe : Option Bool := none
  expediente : Option String := none
deriving DecidableEq

def notFoundMsg : String := "case_id no encontrado."

def noStoryMsg : String :=
  "No hay relato quemado para ese case_id (usa LAB-0001 o LAB-0002)."

/-! ### Tools (the Case Operations API), as store-passing functions -/

/-- `create_case(case_id=None)`; `(case_id or "LAB-0001").upper()`. -/
def create_case (db : Store) (case_id : Option String) : OpResult × Store :=
  let cid := pyUpperStr (strOr (optStr case_id) "LAB-0001")
  match dictGet cid db with
  | some c => ({ status := "ok", case_id := some cid, state := some c.state.value }, db)
  | none =>
    let r := newRecord cid
    ({ status := "ok", case_id := some cid, state := some r.state.value },
     dictInsert cid r db)

def capture_identity (db : Store) (case_id dui nombre contacto : String) :
    OpResult × Store :=
  let cid := pyUpperStr case_id
  let c0 := match dictGet cid db with
    | some c => c
    | none => newRecord cid
  let c := { c0 with
    data := { c0.data with dui := some dui, nombre := some nombre, contacto := some contacto },
    state := CaseState.DETAILS_CAPTURED }
  ({ status := "ok", case_id := some cid, state := some c.state.value },
   dictInsert cid c db)

def pull_story_from_general (db : Store) (case_id : String) : OpResult × Store :=
  let cid := pyUpperStr case_id
  let db1 := match dictGet cid db with
    | some _ => db
    | none => dictInsert cid (newRecord cid) db
  let c0 := match dictGet cid db1 with
    | some c => c
    | none => newRecord cid
  match generalCases cid with
  | none => ({ status := "error", error_message := some noStoryMsg }, db1)
  | some relato =>
    let c := { c0 with
      data := { c0.data with relato := some relato },
      state := CaseState.DETAILS_CAPTURED }
    ({ status := "ok", case_id := some cid,
       formato := some { nombre_persona := optOr c.data.nombre "N/D",
                         dui := optOr c.data.dui "N/D",
                         relato := relato },
       state := some c.state.value },
     dictInsert cid c db1)

def add_more_info (db : Store) (case_id info_adicional : String) : OpResult × Store :=
  let cid := pyUpperStr case_id
  match dictGet cid db with
  | none => ({ status := "error", error_message := some notFoundMsg }, db)
  | some c0 =>
    let c := { c0 with
      data := { c0.data with relato_extra := some info_adicional },
      state := CaseState.DETAILS_CAPTURED }
    ({ status := "ok", case_id := some cid, state := some c.state.value },
     dictInsert cid c db)

def capture_required_fields (db : Store)
    (case_id empleador_nombre cargo salario_monto salario_periodicidad
     fecha_inicio fecha_despido_ultimo_pago pretension : String) :
    OpResult × Store :=
  let cid := pyUpperStr case_id
  match dictGet cid db with
  | none => ({ status := "error", error_message := some notFoundMsg }, db)
  | some c0 =>
    let c := { c0 with
      data := { c0.data with
        empleador_nombre := some empleador_nombre,
        cargo := some cargo,
        salario_monto := some salario_monto,
        salario_periodicidad := some salario_periodicidad,
        fecha_inicio := some fecha_inicio,
        fecha_despido_ultimo_pago := some fecha_despido_ultimo_pago,
        pretension := some pretension },
      state := CaseState.DETAILS_CAPTURED }
    ({ status := "ok", case_id := some cid, state := some c.state.value },
     dictInsert cid c db)

/-- The fresh checklist `{doc: DocumentChecklistItem(doc=doc) for doc in DOCUMENTOS_BASE}`. -/
def baseChecklist : List (String × DocumentChecklistItem) :=
  DOCUMENTOS_BASE.map (fun d => (d, { doc := d }))

def request_documents (db : Store) (case_id : String) : OpResult × Store :=
  let cid := pyUpperStr case_id
  match dictGet cid db with
  | none => ({ status := "error", error_message := some notFoundMsg }, db)
  | some c0 =>
    let c := { c0 with checklist := baseChecklist, state := CaseState.DOCS_REQUESTED }
    ({ status := "ok", case_id := some cid,
       documentos_base := some (c.checklist.map (fun p => (p.2.doc, p.2.recibido))),
       state := some c.state.value,
       nota := some "No son obligatorios, pero se solicitan si existen." },
     dictInsert cid c db)

/-- Lines 268-271 of the source: fetch the item (or a fresh one), set its
`recibido` flag, and store the note only when it is truthy (non-empty). -/
def markedItem (cl : List (String × DocumentChecklistItem)) (doc_name : String)
    (existe : Bool) (nota : Option String) : DocumentChecklistItem :=
  let item0 := match dictGet doc_name cl with
    | some it => it
    | none => { doc := doc_name }
  let item1 := { item0 with recibido := existe }
  match nota with
  | some n => if n.isEmpty then item1 else { item1 with nota := some n }
  | none => item1

def mark_document (db : Store) (case_id doc_name : String) (existe : Bool)
    (nota : Option String) : OpResult × Store :=
  let cid := pyUpperStr case_id
  match dictGet cid db with
  | none => ({ status := "error", error_message := some notFoundMsg }, db)
  | some c0 =>
    let cl0 := if c0.checklist.isEmpty then baseChecklist else c0.checklist
    let item := markedItem cl0 doc_name existe nota
    let c := { c0 with
      checklist := dictInsert doc_name item cl0,
      state := CaseState.DOCS_RECEIVED }
    ({ status := "ok", case_id := some cid, doc := some doc_name,
       existe := some existe, state := some c.state.value },
     dictInsert cid c db)

/-- What happens to the stored note on a mark-document call: a truthy (present,
non-empty) note overwrites, anything else leaves the old note. -/
def notaPut (old : Option String) (nota : Option String) : Option String :=
  match nota with
  | some n => if n.isEmpty then old else some n
  | none => old

/-- `relato_total = (d.relato or "") + ("\n" + d.relato_extra if d.relato_extra else "")`. -/
def relatoTotal (d : CaseData) : String :=
  optStr d.relato ++
    (match d.relato_extra with
     | some e => if e.isEmpty then "" else "\n" ++ e
     | none => "")

def penalFlag : String := "Señales de posible materia penal (solo derivación sugerida)."

/-- The missing-field flags, in source order (wage amount and periodicity
share one flag). -/
def computeMissingFlags (d : CaseData) : List String :=
  (if falsy d.nombre then ["Falta nombre."] else []) ++
  (if falsy d.dui then ["Falta DUI."] else []) ++
  (if falsy d.contacto then ["Falta contacto."] else []) ++
  (if falsy d.empleador_nombre then ["Falta empleador (nombre)."] else []) ++
  (if falsy d.cargo then ["Falta cargo."] else []) ++
  (if falsy d.salario_monto || falsy d.salario_periodicidad then
    ["Falta salario (monto/periodicidad)."] else []) ++
  (if falsy d.fecha_inicio then ["Falta fecha inicio relación."] else []) ++
  (if falsy d.fecha_despido_ultimo_pago then ["Falta fecha despido/último pago."] else []) ++
  (if falsy d.relato then ["Falta relato base (del agente general)."] else []) ++
  (if falsy d.pretension then ["Falta pretensión."] else [])

/-- The full flag list a validation pass computes: missing-field flags plus
the criminal-signal flag when the combined narrative matches a penal phrase. -/
def recomputedFlags (d : CaseData) : List String :=
  computeMissingFlags d ++
  (if containsAnyOf PENAL_SIGNALS (normalizeText (relatoTotal d)) then [penalFlag] else [])

def validate_and_recheck (db : Store) (case_id : String) : OpResult × Store :=
  let cid := pyUpperStr case_id
  match dictGet cid db with
  | none => ({ status := "error", error_message := some notFoundMsg }, db)
  | some c0 =>
    let d := c0.data
    let flags := recomputedFlags d
    let rt := relatoTotal d
    let is_laboral := corresponde_a_laboral rt
    let jur := route_operativa rt
    let c := { c0 with
      data := { d with banderas := flags, jurisdiccion_probable := some jur },
      state := CaseState.PRE_CLASSIFIED }
    ({ status := "ok", case_id := some cid, flags := some flags,
       jurisdiccion_probable := some jur,
       corresponde_a_laboral_probable := some is_laboral,
       state := some c.state.value },
     dictInsert cid c db)

/-- One line of the documents block of the expediente. -/
def docLine (cl : List (String × DocumentChecklistItem)) (d : String) : String :=
  let item := dictGet d cl
  let ok := match item with
    | some it => it.recibido
    | none => false
  let note := match item with
    | some it =>
      match it.nota with
      | some n => if n.isEmpty then "" else " (" ++ n ++ ")"
      | none => ""
    | none => ""
  "- " ++ (if ok then "✅" else "▫️") ++ " " ++ d ++ note

/-- The lines joined (with `"\n".join`) into the expediente text. -/
def expedienteLines (cid : String) (c : CaseRecord) : List String :=
  let d := c.data
  let rt := relatoTotal d
  [ "=== EXPEDIENTE (BORRADOR OPERATIVO) ===",
    "Case ID: " ++ cid,
    "",
    "Formato solicitado:",
    "Nombre persona: " ++ optOr d.nombre "N/D",
    "DUI: " ++ optOr d.dui "N/D",
    "Relato de los hechos:",
    strOr rt "N/D",
    "",
    "Obligatorios capturados (digitados por operador):",
    "- Contacto: " ++ optOr d.contacto "N/D",
    "- Empleador: " ++ optOr d.empleador_nombre "N/D",
    "- Cargo: " ++ optOr d.cargo "N/D",
    "- Salario: " ++ optOr d.salario_monto "N/D" ++ " (" ++ optOr d.salario_periodicidad "N/D" ++ ")",
    "- Fechas: inicio=" ++ optOr d.fecha_inicio "N/D" ++ " | despido/último pago=" ++
      optOr d.fecha_despido_ultimo_pago "N/D",
    "- Pretensión: " ++ optOr d.pretension "N/D",
    "",
    "Documentos base (si existen):" ] ++
  DOCUMENTOS_BASE.map (docLine c.checklist) ++
  [ "",
    "Pre-clasificación operativa (NO dictamen):",
    "- Ruta/Jurisdicción probable: " ++ optOr d.jurisdiccion_probable "N/D",
    "",
    "Banderas / faltantes:" ] ++
  (if d.banderas.isEmpty then ["- (Sin banderas)"] else d.banderas.map (fun x => "- " ++ x)) ++
  [ "",
    "Nota: revisión humana final obligatoria." ]

def expedienteText (cid : String) (c : CaseRecord) : String :=
  String.intercalate "\n" (expedienteLines cid c)

def generate_expediente (db : Store) (case_id : String) : OpResult × Store :=
  let cid := pyUpperStr case_id
  match dictGet cid db with
  | none => ({ status := "error", error_message := some notFoundMsg }, db)
  | some c0 =>
    let exp := expedienteText cid c0
    let c := { c0 with expediente := some exp, state := CaseState.EXPEDIENTE_GENERATED }
    ({ status := "ok", case_id := some cid, expediente := some exp,
       state := some c.state.value },
     dictInsert cid c db)

def handoff_to_human (db : Store) (case_id : String) (nota : Option String) :
    OpResult × Store :=
  let cid := pyUpperStr case_id
  match dictGet cid db with
  | none => ({ status := "error", error_message := some notFoundMsg }, db)
  | some c0 =>
    let c := { c0 with state := CaseState.HANDOFF_TO_HUMAN }
    ({ status := "ok", case_id := some cid, state := some c.state.value,
       nota := some (strOr (optStr nota) "") },
     dictInsert cid c db)

/-! ### Association-list lemmas -/

theorem dictGet_dictInsert_self {α : Type} (k : String) (v : α)
    (l : List (String × α)) : dictGet k (dictInsert k v l) = some v := by
  induction l with
  | nil => simp [dictGet, dictInsert]
  | cons p rest ih =>
    obtain ⟨q, w⟩ := p
    by_cases h : q = k
    · simp [dictGet, dictInsert, h]
    · simp [dictGet, dictInsert, h, ih]

theorem dictGet_dictInsert_ne {α : Type} (q k : String) (v : α)
    (l : List (String × α)) (h : q ≠ k) :
    dictGet q (dictInsert k v l) = dictGet q l := by
  induction l with
  | nil => simp [dictGet, dictInsert, Ne.symm h]
  | cons p rest ih =>
    obtain ⟨r, w⟩ := p
    by_cases hr : r = k
    · subst hr
      simp [dictGet, dictInsert, Ne.symm h]
    · simp [dictGet, dictInsert, hr, ih]

theorem dictGet_map_self {α : Type} (f : String → α) (d : String) :
    ∀ L : List String, d ∈ L →
      dictGet d (L.map (fun x => (x, f x))) = some (f d) := by
  intro L
  induction L with
  | nil => intro h; cases h
  | cons x xs ih =>
    intro hmem
    by_cases hx : x = d
    · subst hx; simp [dictGet]
    · rcases List.mem_cons.mp hmem with he | hxs
      · exact absurd he.symm hx
      · simp [dictGet, hx, ih hxs]

theorem dictGet_map_eq_or {α : Type} (f : String → α) (d : String) :
    ∀ L : List String,
      dictGet d (L.map (fun x => (x, f x))) = some (f d) ∨
      dictGet d (L.map (fun x => (x, f x))) = none := by
  intro L
  induction L with
  | nil => exact Or.inr rfl
  | cons x xs ih =>
    by_cases hx : x = d
    · subst hx; exact Or.inl (by simp [dictGet])
    · simpa [dictGet, hx] using ih

/-! ### Claim C1 — narrative pull for an unregistered identifier -/

/-- Claim C1 as stated is false at a concrete input: pulling the narrative for
"LAB-9999" (which has no registered narrative) on an empty store returns the
NoDataAvailable error, yet the case store is not left unchanged — a fresh
record is created for the identifier before the narrative lookup. -/
theorem C1_counterexample :
    (pull_story_from_general [] "LAB-9999").1.status = "error" ∧
    (pull_story_from_general [] "LAB-9999").1.error_message = some noStoryMsg ∧
    (pull_story_from_general [] "LAB-9999").2 ≠ ([] : Store) := by
  refine ⟨rfl, rfl, ?_⟩
  decide

/-- Claim C1, amended: for every case identifier with no registered narrative,
the pull-narrative operation returns the NoDataAvailable error result (never a
success); when the addressed record already exists the store — hence the
record's state — is left unchanged, but when it is absent a fresh record (state
RECEIVED) is inserted into the store before the error is returned. -/
theorem C1_amended_thm (db : Store) (case_id : String)
    (hn : generalCases (pyUpperStr case_id) = none) :
    (pull_story_from_general db case_id).1.status = "error" ∧
    (pull_story_from_general db case_id).1.error_message = some noStoryMsg ∧
    ((∃ c, dictGet (pyUpperStr case_id) db = some c) →
      (pull_story_from_general db case_id).2 = db) ∧
    (dictGet (pyUpperStr case_id) db = none →
      (pull_story_from_general db case_id).2 =
        dictInsert (pyUpperStr case_id) (newRecord (pyUpperStr case_id)) db) := by
  cases h : dictGet (pyUpperStr case_id) db with
  | some c =>
    refine ⟨?_, ?_, ?_, ?_⟩ <;> simp [pull_story_from_general, h, hn]
  | none =>
    refine ⟨?_, ?_, ?_, ?_⟩ <;> simp [pull_story_from_general, h, hn]

theorem C1_amended_witness :
    generalCases (pyUpperStr "LAB-9999") = none ∧
    (pull_story_from_general [] "LAB-9999").1.status = "error" ∧
    (pull_story_from_general [] "LAB-9999").2 =
      dictInsert "LAB-9999" (newRecord "LAB-9999") [] := by
  have hn : generalCases (pyUpperStr "LAB-9999") = none := rfl
  refine ⟨hn, (C1_amended_thm [] "LAB-9999" hn).1, ?_⟩
  exact (C1_amended_thm [] "LAB-9999" hn).2.2.2 rfl

/-! ### Claim C2 — shape of every result object -/

/-- Claim C2 as stated is false at a concrete input: appending narrative to an
identifier absent from the store returns a result whose `case_id` key is
missing, so not every result carries the case identifier. -/
theorem C2_counterexample :
    (add_more_info [] "LAB-0001" "dato").1.status = "error" ∧
    (add_more_info [] "LAB-0001" "dato").1.case_id = none := by
  exact ⟨rfl, rfl⟩

/-- The shape every result of the Case Operations API actually has: a status
that is "ok" or "error"; on "ok" the case identifier and the resulting state
are present; on "error" an error message is present but the case identifier is
not included. -/
def resultShape (r : OpResult) : Prop :=
  (r.status = "ok" ∨ r.status = "error") ∧
  (r.status = "ok" → r.case_id ≠ none ∧ r.state ≠ none) ∧
  (r.status = "error" → r.error_message ≠ none ∧ r.case_id = none)

/-- Claim C2, amended: every operation's result contains a status field that is
"ok" or "error"; results with status "ok" additionally carry the case
identifier and the resulting state; results with status "error" carry an error
message but omit the case identifier. -/
theorem C2_amended_thm :
    (∀ db cid, resultShape (create_case db cid).1) ∧
    (∀ db a b c d, resultShape (capture_identity db a b c d).1) ∧
    (∀ db a, resultShape (pull_story_from_general db a).1) ∧
    (∀ db a b, resultShape (add_more_info db a b).1) ∧
    (∀ db a b c d e f g h, resultShape (capture_required_fields db a b c d e f g h).1) ∧
    (∀ db a, resultShape (request_documents db a).1) ∧
    (∀ db a b e n, resultShape (mark_document db a b e n).1) ∧
    (∀ db a, resultShape (validate_and_recheck db a).1) ∧
    (∀ db a, resultShape (generate_expediente db a).1) ∧
    (∀ db a n, resultShape (handoff_to_human db a n).1) := by
  refine ⟨?_, ?_, ?_, ?_, ?_, ?_, ?_, ?_, ?_, ?_⟩
  · intro db cid
    cases h : dictGet (pyUpperStr (strOr (optStr cid) "LAB-0001")) db <;>
      simp [create_case, h, resultShape]
  · intro db a b c d
    cases h : dictGet (pyUpperStr a) db <;>
      simp [capture_identity, h, resultShape]
  · intro db a
    cases h : dictGet (pyUpperStr a) db <;>
      cases hg : generalCases (pyUpperStr a) <;>
        simp [pull_story_from_general, h, hg, resultShape]
  · intro db a b
    cases h : dictGet (pyUpperStr a) db <;>
      simp [add_more_info, h, resultShape]
  · intro db a b c d e f g h
    cases hx : dictGet (pyUpperStr a) db <;>
      simp [capture_required_fields, hx, resultShape]
  · intro db a
    cases h : dictGet (pyUpperStr a) db <;>
      simp [request_documents, h, resultShape]
  · intro db a b e n
    cases h : dictGet (pyUpperStr a) db <;>
      simp [mark_document, h, resultShape]
  · intro db a
    cases h : dictGet (pyUpperStr a) db <;>
      simp [validate_and_recheck, h, resultShape]
  · intro db a
    cases h : dictGet (pyUpperStr a) db <;>
      simp [generate_expediente, h, resultShape]
  · intro db a n
    cases h : dictGet (pyUpperStr a) db <;>
      simp [handoff_to_human, h, resultShape]

theorem C2_amended_witness :
    ((create_case [] none).1.case_id ≠ none ∧ (create_case [] none).1.state ≠ none) ∧
    (add_more_info [] "LAB-0001" "x").1.error_message ≠ none :=
  ⟨(C2_amended_thm.1 [] none).2.1 rfl,
   ((C2_amended_thm.2.2.2.1 [] "LAB-0001" "x").2.2 rfl).1⟩

/-! ### Claim C3 — criminal signals take priority over labor keywords -/

/-- Claim C3: whenever the normalized text contains a criminal-signal phrase as
a substring, the classifier's verdict is not labor-relevant and the routing
label is the criminal escalation label, no matter which labor keywords also
occur in the text. -/
theorem C3_thm (text : String)
    (h : containsAnyOf PENAL_SIGNALS (normalizeText text) = true) :
    corresponde_a_laboral text = false ∧ route_operativa text = routePenal := by
  constructor
  · simp [corresponde_a_laboral, h]
  · simp [route_operativa, h]

theorem C3_witness :
    containsAnyOf PENAL_SIGNALS
        (normalizeText "Mi EMPLEADOR no pagó el salario y me amenazó con EXTORSIÓN") = true ∧
    containsAnyOf LABORAL_KEYWORDS
        (normalizeText "Mi EMPLEADOR no pagó el salario y me amenazó con EXTORSIÓN") = true ∧
    corresponde_a_laboral "Mi EMPLEADOR no pagó el salario y me amenazó con EXTORSIÓN" = false ∧
    route_operativa "Mi EMPLEADOR no pagó el salario y me amenazó con EXTORSIÓN" = routePenal := by
  have h : containsAnyOf PENAL_SIGNALS
      (normalizeText "Mi EMPLEADOR no pagó el salario y me amenazó con EXTORSIÓN") = true := by
    decide
  have hk : containsAnyOf LABORAL_KEYWORDS
      (normalizeText "Mi EMPLEADOR no pagó el salario y me amenazó con EXTORSIÓN") = true := by
    decide
  exact ⟨h, hk,
    (C3_thm "Mi EMPLEADOR no pagó el salario y me amenazó con EXTORSIÓN" h).1,
    (C3_thm "Mi EMPLEADOR no pagó el salario y me amenazó con EXTORSIÓN" h).2⟩

/-! ### Claim C4 — validation recomputes flags from scratch -/

/-- The ten missing-field flags, in source order. -/
def tenMissingFlags : List String :=
  [ "Falta nombre.", "Falta DUI.", "Falta contacto.", "Falta empleador (nombre).",
    "Falta cargo.", "Falta salario (monto/periodicidad).", "Falta fecha inicio relación.",
    "Falta fecha despido/último pago.", "Falta relato base (del agente general).",
    "Falta pretensión." ]

/-- Outcome of a validate-and-reclassify call on a record whose ten checked
fields are all unset, with data `d0` before the call. -/
def validateOutcome (db : Store) (case_id : String) (d0 : CaseData) : Prop :=
  ∃ c1, dictGet (pyUpperStr case_id) (validate_and_recheck db case_id).2 = some c1 ∧
    c1.data.banderas = recomputedFlags d0 ∧
    (validate_and_recheck db case_id).1.flags = some c1.data.banderas ∧
    c1.data.banderas =
      tenMissingFlags ++
        (if containsAnyOf PENAL_SIGNALS (normalizeText (relatoTotal d0)) then [penalFlag]
         else []) ∧
    (penalFlag ∈ c1.data.banderas ↔
      containsAnyOf PENAL_SIGNALS (normalizeText (relatoTotal d0)) = true) ∧
    c1.data.banderas.length =
      (if containsAnyOf PENAL_SIGNALS (normalizeText (relatoTotal d0)) then 11 else 10)

/-- Full-replacement outcome of a validate-and-reclassify call on ANY existing
record with data `d0` before the call: the stored flags become exactly the list
recomputed on this call, which is a function of the data fields alone — the
same list results whatever `banderas` the record carried before. -/
def replaceOutcome (db : Store) (case_id : String) (d0 : CaseData) : Prop :=
  ∃ c1, dictGet (pyUpperStr case_id) (validate_and_recheck db case_id).2 = some c1 ∧
    c1.data.banderas = recomputedFlags d0 ∧
    (validate_and_recheck db case_id).1.flags = some (recomputedFlags d0) ∧
    ∀ b : List String, recomputedFlags { d0 with banderas := b } = recomputedFlags d0

/-- Claim C4: for EVERY existing record, validate-and-reclassify fully replaces
the stored flags with the list recomputed on that call — the recomputation
ignores the previously stored `banderas`, so flags from earlier calls never
survive — and on a record whose checked CaseData fields are all unset that
list is exactly the 10 missing-field flags (wage amount and periodicity
combined into one), plus one criminal-signal flag if and only if the combined
narrative contains a criminal-signal phrase. -/
theorem C4_thm (db : Store) (case_id : String) (c0 : CaseRecord)
    (hc : dictGet (pyUpperStr case_id) db = some c0) :
    replaceOutcome db case_id c0.data ∧
    (c0.data.nombre = none → c0.data.dui = none → c0.data.contacto = none →
     c0.data.empleador_nombre = none → c0.data.cargo = none →
     c0.data.salario_monto = none → c0.data.salario_periodicidad = none →
     c0.data.fecha_inicio = none → c0.data.fecha_despido_ultimo_pago = none →
     c0.data.relato = none → c0.data.pretension = none →
     validateOutcome db case_id c0.data) := by
  constructor
  · refine ⟨{ c0 with
        data := { c0.data with
          banderas := recomputedFlags c0.data,
          jurisdiccion_probable := some (route_operativa (relatoTotal c0.data)) },
        state := .PRE_CLASSIFIED }, ?_, rfl, ?_, ?_⟩
    · simp [validate_and_recheck, hc, dictGet_dictInsert_self]
    · simp [validate_and_recheck, hc]
    · intro b
      rfl
  · intro h1 h2 h3 h4 h5 h6 h7 h8 h9 h10 h11
    have hflags : computeMissingFlags c0.data = tenMissingFlags := by
      simp [computeMissingFlags, falsy, h1, h2, h3, h4, h5, h6, h7, h8, h9, h10, h11,
        tenMissingFlags]
    have hrec : recomputedFlags c0.data =
        tenMissingFlags ++
          (if containsAnyOf PENAL_SIGNALS (normalizeText (relatoTotal c0.data)) then [penalFlag]
           else []) := by
      simp [recomputedFlags, hflags]
    refine ⟨{ c0 with
        data := { c0.data with
          banderas := recomputedFlags c0.data,
          jurisdiccion_probable := some (route_operativa (relatoTotal c0.data)) },
        state := .PRE_CLASSIFIED }, ?_, rfl, ?_, ?_, ?_, ?_⟩
    · simp [validate_and_recheck, hc, dictGet_dictInsert_self]
    · simp [validate_and_recheck, hc]
    · exact hrec
    · show penalFlag ∈ recomputedFlags c0.data ↔ _
      rw [hrec]
      cases hp : containsAnyOf PENAL_SIGNALS (normalizeText (relatoTotal c0.data)) with
      | true => simp
      | false =>
        have hnm : penalFlag ∉ tenMissingFlags := by decide
        simp [hnm]
    · show (recomputedFlags c0.data).length = _
      rw [hrec]
      cases hp : containsAnyOf PENAL_SIGNALS (normalizeText (relatoTotal c0.data)) <;>
        simp [tenMissingFlags]

/-- A record with captured fields and leftover flags from an earlier
validation pass, used to witness the full-replacement half of C4. -/
def prevFlaggedRecord : CaseRecord :=
  { newRecord "LAB-0002" with data :=
    { nombre := some "Ana", dui := some "00000000-0", contacto := some "ana@x.com",
      relato := some "No me pagaron el salario.",
      banderas := ["bandera de una validación anterior"] } }

theorem C4_witness :
    (dictGet (pyUpperStr "LAB-0002") [("LAB-0002", prevFlaggedRecord)] =
        some prevFlaggedRecord ∧
      replaceOutcome [("LAB-0002", prevFlaggedRecord)] "LAB-0002"
        prevFlaggedRecord.data) ∧
    (dictGet (pyUpperStr "LAB-0001") [("LAB-0001", newRecord "LAB-0001")] =
        some (newRecord "LAB-0001") ∧
      validateOutcome [("LAB-0001", newRecord "LAB-0001")] "LAB-0001"
        (newRecord "LAB-0001").data) :=
  ⟨⟨rfl, (C4_thm [("LAB-0002", prevFlaggedRecord)] "LAB-0002" prevFlaggedRecord rfl).1⟩,
   ⟨rfl, (C4_thm [("LAB-0001", newRecord "LAB-0001")] "LAB-0001" (newRecord "LAB-0001")
      rfl).2 rfl rfl rfl rfl rfl rfl rfl rfl rfl rfl rfl⟩⟩

/-! ### Claim C5 — marking a document before requesting documents -/

/-- Outcome of a mark-document call on a record whose checklist was empty. -/
def markOutcome (db : Store) (case_id doc_name : String) (existe : Bool)
    (nota : Option String) : Prop :=
  (mark_document db case_id doc_name existe nota).1.status = "ok" ∧
  ∃ c1, dictGet (pyUpperStr case_id) (mark_document db case_id doc_name existe nota).2 =
      some c1 ∧
    c1.state = CaseState.DOCS_RECEIVED ∧
    (∀ d ∈ DOCUMENTOS_BASE, d ≠ doc_name →
      dictGet d c1.checklist = some { doc := d }) ∧
    dictGet doc_name c1.checklist =
      some { doc := doc_name, recibido := existe, nota := notaPut none nota }

theorem baseChecklist_get_or (doc_name : String) :
    dictGet doc_name baseChecklist = some ({ doc := doc_name } : DocumentChecklistItem) ∨
    dictGet doc_name baseChecklist = none := by
  have h := dictGet_map_eq_or (fun d => ({ doc := d } : DocumentChecklistItem))
    doc_name DOCUMENTOS_BASE
  simpa [baseChecklist] using h

theorem baseChecklist_get_mem (d : String) (hd : d ∈ DOCUMENTOS_BASE) :
    dictGet d baseChecklist = some ({ doc := d } : DocumentChecklistItem) := by
  have h := dictGet_map_self (fun x => ({ doc := x } : DocumentChecklistItem))
    d DOCUMENTOS_BASE hd
  simpa [baseChecklist] using h

theorem markedItem_base (doc_name : String) (existe : Bool) (nota : Option String) :
    markedItem baseChecklist doc_name existe nota =
      { doc := doc_name, recibido := existe, nota := notaPut none nota } := by
  rcases baseChecklist_get_or doc_name with h | h <;>
    · cases nota with
      | none => simp [markedItem, notaPut, h]
      | some n =>
        by_cases hn : n.isEmpty <;> simp [markedItem, notaPut, h, hn]

/-- Claim C5: marking a document on an existing record whose checklist is empty
succeeds, recreates the full base checklist (every base document present with a
fresh unreceived item), and the one named item carries the given received flag
and the supplied note (a truthy note is stored, an absent or empty one leaves
the fresh item's note empty). -/
theorem C5_thm (db : Store) (case_id doc_name : String) (existe : Bool)
    (nota : Option String) (c0 : CaseRecord)
    (hc : dictGet (pyUpperStr case_id) db = some c0)
    (hcl : c0.checklist = []) :
    markOutcome db case_id doc_name existe nota := by
  constructor
  · simp [mark_document, hc]
  · refine ⟨{ c0 with
        checklist := dictInsert doc_name (markedItem baseChecklist doc_name existe nota)
          baseChecklist,
        state := .DOCS_RECEIVED }, ?_, rfl, ?_, ?_⟩
    · simp [mark_document, hc, hcl, dictGet_dictInsert_self]
    · intro d hd hne
      show dictGet d (dictInsert doc_name _ baseChecklist) = _
      rw [dictGet_dictInsert_ne d doc_name _ _ hne]
      exact baseChecklist_get_mem d hd
    · show dictGet doc_name (dictInsert doc_name _ baseChecklist) = _
      rw [dictGet_dictInsert_self, markedItem_base]

theorem C5_witness :
    dictGet (pyUpperStr "LAB-0001") [("LAB-0001", newRecord "LAB-0001")] =
      some (newRecord "LAB-0001") ∧
    (newRecord "LAB-0001").checklist = [] ∧
    markOutcome [("LAB-0001", newRecord "LAB-0001")] "LAB-0001"
      "Carta de despido (si existe)" true (some "la trae mañana") :=
  ⟨rfl, rfl, C5_thm [("LAB-0001", newRecord "LAB-0001")] "LAB-0001"
    "Carta de despido (si existe)" true (some "la trae mañana")
    (newRecord "LAB-0001") rfl rfl⟩

/-! ### Claim C6 — create-case is idempotent -/

/-- Claim C6: creating a case a second time with the same identifier is
idempotent — the second call returns status ok with the record's existing
state, and the store (hence the record's data, checklist, state and
expediente) is unchanged by the second call. -/
theorem C6_thm (db : Store) (case_id : Option String) :
    (create_case (create_case db case_id).2 case_id).1.status = "ok" ∧
    (create_case (create_case db case_id).2 case_id).1 = (create_case db case_id).1 ∧
    (create_case (create_case db case_id).2 case_id).2 = (create_case db case_id).2 ∧
    ∃ c, dictGet (pyUpperStr (strOr (optStr case_id) "LAB-0001"))
        (create_case db case_id).2 = some c ∧
      (create_case (create_case db case_id).2 case_id).1.state = some c.state.value := by
  cases h : dictGet (pyUpperStr (strOr (optStr case_id) "LAB-0001")) db with
  | some c =>
    refine ⟨?_, ?_, ?_, c, ?_, ?_⟩ <;> simp [create_case, h]
  | none =>
    refine ⟨?_, ?_, ?_, newRecord (pyUpperStr (strOr (optStr case_id) "LAB-0001")),
      ?_, ?_⟩ <;> simp [create_case, h, dictGet_dictInsert_self]

/-! ### Claim C7 — identifiers are addressed case-insensitively -/

theorem pyUpperStr_empty_iff (s : String) : pyUpperStr s = "" ↔ s = "" := by
  constructor
  · intro h
    have hd : s.data.map pyToUpper = [] := congrArg String.data h
    have hnil : s.data = [] := by
      cases hl : s.data with
      | nil => rfl
      | cons c cs => rw [hl] at hd; simp at hd
    exact String.ext hnil
  · intro h
    rw [h]
    rfl

theorem upper_default_congr (i j : String) (h : pyUpperStr i = pyUpperStr j) :
    pyUpperStr (strOr (optStr (some i)) "LAB-0001") =
      pyUpperStr (strOr (optStr (some j)) "LAB-0001") := by
  simp only [optStr]
  by_cases hi : i = ""
  · have hj : j = "" := by
      apply (pyUpperStr_empty_iff j).mp
      rw [← h, hi]
      rfl
    rw [hi, hj]
  · have hj : j ≠ "" := by
      intro hj0
      apply hi
      apply (pyUpperStr_empty_iff i).mp
      rw [h, hj0]
      rfl
    have hi2 : i.isEmpty = false := by
      cases he : i.isEmpty with
      | false => rfl
      | true => exact absurd ((String.isEmpty_iff i).mp he) hi
    have hj2 : j.isEmpty = false := by
      cases he : j.isEmpty with
      | false => rfl
      | true => exact absurd ((String.isEmpty_iff j).mp he) hj
    simp [strOr, hi2, hj2, h]

/-- Claim C7: identifiers equal up to letter case address the same record with
the same effect, for every operation of the Case Operations API — each
operation upper-cases the identifier before lookup and uses nothing else of
it. -/
theorem C7_thm (i j : String) (h : pyUpperStr i = pyUpperStr j) :
    (∀ db, create_case db (some i) = create_case db (some j)) ∧
    (∀ db a b c, capture_identity db i a b c = capture_identity db j a b c) ∧
    (∀ db, pull_story_from_general db i = pull_story_from_general db j) ∧
    (∀ db a, add_more_info db i a = add_more_info db j a) ∧
    (∀ db a b c d e f g, capture_required_fields db i a b c d e f g =
      capture_required_fields db j a b c d e f g) ∧
    (∀ db, request_documents db i = request_documents db j) ∧
    (∀ db a e n, mark_document db i a e n = mark_document db j a e n) ∧
    (∀ db, validate_and_recheck db i = validate_and_recheck db j) ∧
    (∀ db, generate_expediente db i = generate_expediente db j) ∧
    (∀ db n, handoff_to_human db i n = handoff_to_human db j n) := by
  refine ⟨?_, ?_, ?_, ?_, ?_, ?_, ?_, ?_, ?_, ?_⟩
  · intro db
    unfold create_case
    rw [upper_default_congr i j h]
  · intro db a b c
    unfold capture_identity
    rw [h]
  · intro db
    unfold pull_story_from_general
    rw [h]
  · intro db a
    unfold add_more_info
    rw [h]
  · intro db a b c d e f g
    unfold capture_required_fields
    rw [h]
  · intro db
    unfold request_documents
    rw [h]
  · intro db a e n
    unfold mark_document
    rw [h]
  · intro db
    unfold validate_and_recheck
    rw [h]
  · intro db
    unfold generate_expediente
    rw [h]
  · intro db n
    unfold handoff_to_human
    rw [h]

theorem C7_witness :
    pyUpperStr "lab-0001" = pyUpperStr "LAB-0001" ∧
    create_case [] (some "lab-0001") = create_case [] (some "LAB-0001") ∧
    add_more_info [] "lab-0001" "x" = add_more_info [] "LAB-0001" "x" := by
  have h : pyUpperStr "lab-0001" = pyUpperStr "LAB-0001" := by decide
  exact ⟨h, (C7_thm "lab-0001" "LAB-0001" h).1 [],
    (C7_thm "lab-0001" "LAB-0001" h).2.2.2.1 [] "x"⟩

/-! ### Claim C8 — the generated file is a function of the record state -/

theorem expedienteText_congr (k : String) (c1 c2 : CaseRecord)
    (hd : c1.data = c2.data) (hcl : c1.checklist = c2.checklist) :
    expedienteText k c1 = expedienteText k c2 := by
  unfold expedienteText expedienteLines
  rw [hd, hcl]

/-- Claim C8: generate-file is deterministic — two calls on records holding
identical data fields and checklist (whatever their states, timestamps or a
previously stored expediente) produce byte-identical expediente text, namely
`expedienteText` of the record, which reads only the data and the checklist. -/
theorem C8_thm (db1 db2 : Store) (case_id : String) (c1 c2 : CaseRecord)
    (h1 : dictGet (pyUpperStr case_id) db1 = some c1)
    (h2 : dictGet (pyUpperStr case_id) db2 = some c2)
    (hd : c1.data = c2.data) (hcl : c1.checklist = c2.checklist) :
    (generate_expediente db1 case_id).1.expediente =
      (generate_expediente db2 case_id).1.expediente ∧
    (generate_expediente db1 case_id).1.expediente =
      some (expedienteText (pyUpperStr case_id) c1) := by
  have he := expedienteText_congr (pyUpperStr case_id) c1 c2 hd hcl
  constructor
  · simp [generate_expediente, h1, h2, he]
  · simp [generate_expediente, h1]

theorem C8_witness :
    (generate_expediente [("LAB-0001", newRecord "LAB-0001")] "LAB-0001").1.expediente =
      (generate_expediente
        [("LAB-0001", { newRecord "LAB-0001" with
          state := .HANDOFF_TO_HUMAN, created_at := "2025-01-01T00:00:00Z",
          expediente := some "borrador viejo" })] "LAB-0001").1.expediente :=
  (C8_thm [("LAB-0001", newRecord "LAB-0001")]
    [("LAB-0001", { newRecord "LAB-0001" with
      state := .HANDOFF_TO_HUMAN, created_at := "2025-01-01T00:00:00Z",
      expediente := some "borrador viejo" })]
    "LAB-0001" (newRecord "LAB-0001")
    { newRecord "LAB-0001" with
      state := .HANDOFF_TO_HUMAN, created_at := "2025-01-01T00:00:00Z",
      expediente := some "borrador viejo" }
    rfl rfl rfl rfl).1

/-! ### Claim C9 — absent record: NotFound error, store untouched -/

/-- The dict every record-requiring tool returns when the record is absent. -/
def notFoundResult : OpResult := { status := "error", error_message := some notFoundMsg }

/-- Claim C9: every operation that requires an existing record (append
narrative, capture required fields, request documents, mark document,
validate-and-reclassify, generate file, hand off) returns the NotFound error
result and returns the store exactly as given — no record created, none
mutated — whenever the upper-cased identifier is absent from the store. -/
theorem C9_thm (db : Store) (case_id : String)
    (h : dictGet (pyUpperStr case_id) db = none) :
    (∀ a, add_more_info db case_id a = (notFoundResult, db)) ∧
    (∀ a b c d e f g, capture_required_fields db case_id a b c d e f g =
      (notFoundResult, db)) ∧
    (request_documents db case_id = (notFoundResult, db)) ∧
    (∀ a e n, mark_document db case_id a e n = (notFoundResult, db)) ∧
    (validate_and_recheck db case_id = (notFoundResult, db)) ∧
    (generate_expediente db case_id = (notFoundResult, db)) ∧
    (∀ n, handoff_to_human db case_id n = (notFoundResult, db)) := by
  refine ⟨?_, ?_, ?_, ?_, ?_, ?_, ?_⟩ <;> intros <;>
    simp [add_more_info, capture_required_fields, request_documents, mark_document,
      validate_and_recheck, generate_expediente, handoff_to_human, h, notFoundResult]

theorem C9_witness :
    dictGet (pyUpperStr "LAB-9999") ([] : Store) = none ∧
    validate_and_recheck [] "LAB-9999" = (notFoundResult, []) ∧
    handoff_to_human [] "LAB-9999" none = (notFoundResult, []) :=
  ⟨rfl, (C9_thm [] "LAB-9999" rfl).2.2.2.2.1,
    (C9_thm [] "LAB-9999" rfl).2.2.2.2.2.2 none⟩

/-! ### Claim C10 — an empty or absent note never clears a stored note -/

theorem markedItem_of_get (cl : List (String × DocumentChecklistItem))
    (doc_name : String) (existe : Bool) (nota : Option String)
    (item : DocumentChecklistItem) (hi : dictGet doc_name cl = some item) :
    markedItem cl doc_name existe nota =
      { item with recibido := existe, nota := notaPut item.nota nota } := by
  cases nota with
  | none => simp [markedItem, notaPut, hi]
  | some n => by_cases hn : n.isEmpty <;> simp [markedItem, notaPut, hi, hn]

/-- Claim C10: marking a checklist item that already exists updates its
received flag; the previously stored note survives when the note argument is
absent or empty, is overwritten only by a non-empty note, and hence can never
be cleared through this operation. -/
theorem C10_thm (db : Store) (case_id doc_name : String) (existe : Bool)
    (nota : Option String) (c0 : CaseRecord) (item : DocumentChecklistItem)
    (hc : dictGet (pyUpperStr case_id) db = some c0)
    (hi : dictGet doc_name c0.checklist = some item) :
    ∃ c1, dictGet (pyUpperStr case_id) (mark_document db case_id doc_name existe nota).2 =
        some c1 ∧
      dictGet doc_name c1.checklist =
        some { item with recibido := existe, nota := notaPut item.nota nota } ∧
      ((nota = none ∨ nota = some "") →
        dictGet doc_name c1.checklist = some { item with recibido := existe }) ∧
      (∀ n, nota = some n → n.isEmpty = false →
        dictGet doc_name c1.checklist =
          some { item with recibido := existe, nota := some n }) ∧
      (∀ it1, dictGet doc_name c1.checklist = some it1 →
        item.nota ≠ none → it1.nota ≠ none) := by
  have hne : c0.checklist.isEmpty = false := by
    cases hcl : c0.checklist with
    | nil => rw [hcl] at hi; cases hi
    | cons p rest => rfl
  have hmi := markedItem_of_get c0.checklist doc_name existe nota item hi
  refine ⟨{ c0 with
      checklist := dictInsert doc_name (markedItem c0.checklist doc_name existe nota)
        c0.checklist,
      state := .DOCS_RECEIVED }, ?_, ?_, ?_, ?_, ?_⟩
  · simp [mark_document, hc, hne, dictGet_dictInsert_self]
  · show dictGet doc_name (dictInsert doc_name _ _) = _
    rw [dictGet_dictInsert_self, hmi]
  · rintro (rfl | rfl)
    · show dictGet doc_name (dictInsert doc_name _ _) = _
      rw [dictGet_dictInsert_self, hmi]
      simp [notaPut]
    · show dictGet doc_name (dictInsert doc_name _ _) = _
      rw [dictGet_dictInsert_self, hmi]
      have hemp : ("" : String).isEmpty = true := rfl
      simp [notaPut, hemp]
  · rintro n rfl hn
    show dictGet doc_name (dictInsert doc_name _ _) = _
    rw [dictGet_dictInsert_self, hmi]
    simp [notaPut, hn]
  · intro it1 hit1 hold
    have : it1 = { item with recibido := existe, nota := notaPut item.nota nota } := by
      have h2 : dictGet doc_name (dictInsert doc_name
          (markedItem c0.checklist doc_name existe nota) c0.checklist) =
          some (markedItem c0.checklist doc_name existe nota) :=
        dictGet_dictInsert_self _ _ _
      rw [h2, hmi] at hit1
      exact (Option.some_inj.mp hit1).symm
    rw [this]
    cases nota with
    | none => simpa [notaPut] using hold
    | some n =>
      by_cases hn : n.isEmpty
      · simpa [notaPut, hn] using hold
      · simp [notaPut, hn]

theorem C10_witness :
    (let item : DocumentChecklistItem :=
      { doc := "Contrato (si existe)", recibido := false, nota := some "nota vieja" }
     let r : CaseRecord :=
      { newRecord "LAB-0001" with checklist := [("Contrato (si existe)", item)] }
     ∃ c1, dictGet (pyUpperStr "LAB-0001")
        (mark_document [("LAB-0001", r)] "LAB-0001" "Contrato (si existe)" true
          (some "")).2 = some c1 ∧
      dictGet "Contrato (si existe)" c1.checklist =
        some { item with recibido := true }) := by
  obtain ⟨c1, h1, h2, h3, h4, h5⟩ :=
    C10_thm [("LAB-0001",
        { newRecord "LAB-0001" with checklist := [("Contrato (si existe)",
          { doc := "Contrato (si existe)", recibido := false, nota := some "nota vieja" })] })]
      "LAB-0001" "Contrato (si existe)" true (some "")
      { newRecord "LAB-0001" with checklist := [("Contrato (si existe)",
        { doc := "Contrato (si existe)", recibido := false, nota := some "nota vieja" })] }
      { doc := "Contrato (si existe)", recibido := false, nota := some "nota vieja" }
      rfl rfl
  exact ⟨c1, h1, h3 (Or.inr rfl)⟩

end Laboral
